import Mathlib

/-
Verification of the graph-assembly logic of `src/zoo/resnet/resnet_v2_c.py`
(ResNetV2, the composable ResNet v2 model builder).

The builder uses the Keras functional API: every layer call creates one new
node of the computation graph wired to the node(s) it is applied to.  We embed
this as a netlist: a `Graph` is the list of nodes in creation order, and a
tensor handle is the index of its producing node.  Each builder method of the
Python class becomes a function threading the `Graph` and returning the id of
the node holding its output tensor.
-/

namespace ResNetV2C

/-- Keras convolution padding mode (`padding='valid'` / `padding='same'`). -/
inductive Padding where
  | valid
  | same
deriving DecidableEq, Repr

/-- One layer operation of the assembled computation graph.  Only the
parameters that the source passes explicitly (or that are Keras defaults it
relies on) are recorded. -/
inductive NodeOp where
  | input (shape : Nat × Nat × Nat)
  | zeroPadding2D (padding : Nat × Nat)
  | conv2D (filters : Nat) (kernel : Nat × Nat) (strides : Nat × Nat)
      (padding : Padding) (use_bias : Bool)
  | batchNormalization
  | relu
  | maxPooling2D (pool_size : Nat × Nat) (strides : Nat × Nat)
  | add
  | classifier (n_classes : Nat)
deriving DecidableEq, Repr

/-- A node of the computation graph: its operation and the ids of its inputs. -/
structure Node where
  op : NodeOp
  ins : List Nat
deriving DecidableEq, Repr

/-- A computation graph: the nodes in creation order; a node's id is its
position in the list. -/
abbrev Graph := List Node

/-- Create one new layer node applied to the given input ids; returns the
extended graph and the new node's id. -/
def emit (g : Graph) (op : NodeOp) (ins : List Nat) : Graph × Nat :=
  (g ++ [⟨op, ins⟩], g.length)

/-- One entry of a groups list: a dict `{ 'n_filters': ..., 'n_blocks': ... }`. -/
structure GroupSpec where
  n_filters : Nat
  n_blocks : Nat
deriving DecidableEq, Repr

/-- The class attribute `ResNetV2.groups`: the predefined group table keyed by
depth 50 / 101 / 152.  It is shared, mutable class-level state. -/
structure GroupsTable where
  entry50 : List GroupSpec
  entry101 : List GroupSpec
  entry152 : List GroupSpec
deriving DecidableEq, Repr

/-- `self.groups[n]` after the membership check `n_layers in [50, 101, 152]`:
`some` exactly for the three predefined depths. -/
def GroupsTable.get (t : GroupsTable) (n : Int) : Option (List GroupSpec) :=
  if n = 50 then some t.entry50
  else if n = 101 then some t.entry101
  else if n = 152 then some t.entry152
  else none

/-- Overwrite the table entry for a predefined depth (the effect, on the class
attribute, of mutating the list object the entry holds). -/
def GroupsTable.set (t : GroupsTable) (n : Int) (v : List GroupSpec) : GroupsTable :=
  if n = 50 then { t with entry50 := v }
  else if n = 101 then { t with entry101 := v }
  else if n = 152 then { t with entry152 := v }
  else t

/-- The `n_layers` argument of the constructor: either an integer depth
selector or a user-supplied list of group specifications. -/
inductive NLayers where
  | int (n : Int)
  | list (groups : List GroupSpec)
deriving DecidableEq, Repr

/-- The failures the assembly logic can raise:
`invalidNLayers` is `Exception("ResNet: Invalid value for n_layers")` from
`__init__`; `indexError` is the `IndexError` that `groups.pop(0)` in
`learner` raises on an empty groups list. -/
inductive BuildError where
  | invalidNLayers
  | indexError
deriving DecidableEq, Repr

/-- Outcome of running the constructor: either the assembled model (graph and
output node id) together with the post-construction state of the class-level
groups table and, when a user list was passed, of that list; or an exception. -/
inductive InitResult where
  | ok (model : Graph × Nat) (table : GroupsTable) (userList : Option (List GroupSpec))
  | error (e : BuildError)
deriving DecidableEq, Repr

namespace ResNetV2

/-- The predefined ResNet50 groups list. -/
def groups50 : List GroupSpec := [⟨64, 3⟩, ⟨128, 4⟩, ⟨256, 6⟩, ⟨512, 3⟩]

/-- The predefined ResNet101 groups list. -/
def groups101 : List GroupSpec := [⟨64, 3⟩, ⟨128, 4⟩, ⟨256, 23⟩, ⟨512, 3⟩]

/-- The predefined ResNet152 groups list. -/
def groups152 : List GroupSpec := [⟨64, 3⟩, ⟨128, 8⟩, ⟨256, 36⟩, ⟨512, 3⟩]

/-- The initial (pristine) state of the class attribute `ResNetV2.groups`. -/
def groups : GroupsTable := ⟨groups50, groups101, groups152⟩

/-- Modelled from the spec: `Composable.Conv2D` lives in `models_c.py`, which
is not among the sources; per the spec the constructors are "calling into the
external framework's `Conv2D`, `BatchNormalization`, `Add` primitives", so the
wrapper is modelled as emitting one convolution node with the filters, kernel
size, strides, padding and bias flag the caller passes. -/
def Conv2D (g : Graph) (x : Nat) (filters : Nat) (kernel : Nat × Nat)
    (strides : Nat × Nat) (padding : Padding) (use_bias : Bool) : Graph × Nat :=
  emit g (.conv2D filters kernel strides padding use_bias) [x]

/-- Modelled from the spec: `Composable.BatchNormalization` (in `models_c.py`,
not among the sources) is modelled as emitting one batch-normalization node. -/
def BatchNormalization (g : Graph) (x : Nat) : Graph × Nat :=
  emit g .batchNormalization [x]

/-- Modelled from the spec: `Composable.ReLU` (in `models_c.py`, not among the
sources) is modelled as emitting one ReLU activation node. -/
def ReLU (g : Graph) (x : Nat) : Graph × Nat :=
  emit g .relu [x]

/-- `ResNetV2.stem`: ZeroPadding2D(3,3); 7x7/64 convolution with strides
(2,2), padding 'valid', no bias; BatchNormalization; ReLU; ZeroPadding2D(1,1);
3x3 max-pool with strides (2,2). -/
def stem (g : Graph) (inputs : Nat) : Graph × Nat :=
  let (g, x) := emit g (.zeroPadding2D (3, 3)) [inputs]
  let (g, x) := Conv2D g x 64 (7, 7) (2, 2) .valid false
  let (g, x) := BatchNormalization g x
  let (g, x) := ReLU g x
  let (g, x) := emit g (.zeroPadding2D (1, 1)) [x]
  emit g (.maxPooling2D (3, 3) (2, 2)) [x]

/-- `ResNetV2.identity_block`: bottleneck residual block with identity link.
The input is saved as the shortcut; the main path is BN-ReLU-Conv(1x1,
n_filters), BN-ReLU-Conv(3x3, n_filters, 'same'), BN-ReLU-Conv(1x1,
n_filters*4); the block output is `Add()([shortcut, x])`.  All convolutions
have strides (1,1), no bias; the 1x1 convolutions use the Keras default
padding 'valid'. -/
def identity_block (g : Graph) (x : Nat) (n_filters : Nat) : Graph × Nat :=
  let shortcut := x
  let (g, x) := BatchNormalization g x
  let (g, x) := ReLU g x
  let (g, x) := Conv2D g x n_filters (1, 1) (1, 1) .valid false
  let (g, x) := BatchNormalization g x
  let (g, x) := ReLU g x
  let (g, x) := Conv2D g x n_filters (3, 3) (1, 1) .same false
  let (g, x) := BatchNormalization g x
  let (g, x) := ReLU g x
  let (g, x) := Conv2D g x (n_filters * 4) (1, 1) (1, 1) .valid false
  emit g .add [shortcut, x]

/-- `ResNetV2.projection_block`: bottleneck residual block with projection
shortcut.  The shortcut is BN then Conv(1x1, 4*n_filters, the block strides);
the main path is BN-ReLU-Conv(1x1, n_filters, strides (1,1)),
BN-ReLU-Conv(3x3, n_filters, the block strides, 'same'), BN-ReLU-Conv(1x1,
4*n_filters, strides (1,1)); the block output is `Add()([x, shortcut])`. -/
def projection_block (g : Graph) (x : Nat) (strides : Nat × Nat)
    (n_filters : Nat) : Graph × Nat :=
  let (g, shortcut) := BatchNormalization g x
  let (g, shortcut) := Conv2D g shortcut (4 * n_filters) (1, 1) strides .valid false
  let (g, x1) := BatchNormalization g x
  let (g, x1) := ReLU g x1
  let (g, x1) := Conv2D g x1 n_filters (1, 1) (1, 1) .valid false
  let (g, x1) := BatchNormalization g x1
  let (g, x1) := ReLU g x1
  let (g, x1) := Conv2D g x1 n_filters (3, 3) strides .same false
  let (g, x1) := BatchNormalization g x1
  let (g, x1) := ReLU g x1
  let (g, x1) := Conv2D g x1 (4 * n_filters) (1, 1) (1, 1) .valid false
  emit g .add [x1, shortcut]

/-- `ResNetV2.group`: one projection block with the group's strides, then
`n_blocks` identity blocks, all with the group's `n_filters`. -/
def group (g : Graph) (x : Nat) (strides : Nat × Nat) (spec : GroupSpec) :
    Graph × Nat :=
  let p := projection_block g x strides spec.n_filters
  (List.range spec.n_blocks).foldl (fun p _ => identity_block p.1 p.2 spec.n_filters) p

/-- `ResNetV2.learner`: pops the first group specification off the groups list
(`groups.pop(0)` - an `IndexError` on an empty list, and a mutation of the
caller's list object otherwise), builds it with strides (1,1), then builds
each remaining group with the `group` default strides (2,2).  Returns the
output handle together with the mutated groups list. -/
def learner (g : Graph) (x : Nat) (groups : List GroupSpec) :
    Option ((Graph × Nat) × List GroupSpec) :=
  match groups with
  | [] => none
  | g0 :: rest =>
    some (rest.foldl (fun p spec => group p.1 p.2 (2, 2) spec) (group g x (1, 1) g0), rest)

/-- Modelled from the spec: `Composable.classifier` (in `models_c.py`, not
among the sources) is the classifier head the graph terminates in; it is
modelled as a single classifier node parametrized by `n_classes`. -/
def classifier (g : Graph) (x : Nat) (n_classes : Nat) : Graph × Nat :=
  emit g (.classifier n_classes) [x]

/-- The graph-building part of `ResNetV2.__init__` after groups selection:
`Input`, `stem`, `learner`, `classifier`.  `none` models the `IndexError`
raised by `learner` on an empty groups list; otherwise the result carries the
mutated groups list alongside the model. -/
def construct (groups : List GroupSpec) (input_shape : Nat × Nat × Nat)
    (n_classes : Nat) : Option ((Graph × Nat) × List GroupSpec) :=
  let (g, inputs) := emit [] (.input input_shape) []
  let (g, x) := stem g inputs
  match learner g x groups with
  | none => none
  | some ((g, x), rest) =>
    let (g, outputs) := classifier g x n_classes
    some ((g, outputs), rest)

/-- `ResNetV2.__init__`: an integer `n_layers` not in [50, 101, 152] raises
`Exception("ResNet: Invalid value for n_layers")`; an integer in that list
selects the class-table entry (aliasing the shared list object, so the pop in
`learner` is visible in the table afterwards); a non-integer `n_layers` is
used as the groups list itself (and is mutated by the pop). -/
def init (table : GroupsTable) (n_layers : NLayers)
    (input_shape : Nat × Nat × Nat) (n_classes : Nat) : InitResult :=
  match n_layers with
  | .int n =>
    match table.get n with
    | none => .error .invalidNLayers
    | some groups =>
      match construct groups input_shape n_classes with
      | none => .error .indexError
      | some (m, rest) => .ok m (table.set n rest) none
  | .list groups =>
    match construct groups input_shape n_classes with
    | none => .error .indexError
    | some (m, rest) => .ok m table (some rest)

end ResNetV2

/-! Observation functions used to state the claims. -/

/-- The parameters of a convolution layer. -/
structure ConvSpec where
  filters : Nat
  kernel : Nat × Nat
  strides : Nat × Nat
  padding : Padding
  use_bias : Bool
deriving DecidableEq, Repr

/-- The convolution parameters of a node operation, when it is a convolution. -/
def convSpec? : NodeOp → Option ConvSpec
  | .conv2D f k s p b => some ⟨f, k, s, p, b⟩
  | _ => none

/-- All convolution layers of a graph, in creation order. -/
def convs (g : Graph) : List ConvSpec :=
  g.filterMap fun n => convSpec? n.op

/-- A node is a pre-activated convolution in `g` when its single input is a
ReLU node whose input is a BatchNormalization node. -/
def isConvPreActivated (g : Graph) (n : Node) : Bool :=
  match n.ins with
  | [j] =>
    match g[j]? with
    | some ⟨.relu, [k]⟩ =>
      match g[k]? with
      | some ⟨.batchNormalization, _⟩ => true
      | _ => false
    | _ => false
  | _ => false

/-- Every convolution node of the list is pre-activated with respect to `g`. -/
def allConvsPreActivated (g : Graph) (l : List Node) : Bool :=
  l.all fun n => !(convSpec? n.op).isSome || isConvPreActivated g n

/-- Number of elementwise-add nodes of a graph (one per residual block). -/
def addNodeCount (g : Graph) : Nat :=
  g.countP fun n => n.op == NodeOp.add

/-- The model a constructor outcome carries, if it succeeded. -/
def modelOf : InitResult → Option (Graph × Nat)
  | .ok m _ _ => some m
  | .error _ => none

/-- Whether the constructor returned normally. -/
def isOk : InitResult → Bool
  | .ok .. => true
  | .error _ => false

/-- Whether the outcome is the input-validation exception
`Exception("ResNet: Invalid value for n_layers")`. -/
def raisesInvalid : InitResult → Bool
  | .error .invalidNLayers => true
  | _ => false

/-- A one-node graph holding only the `Input` tensor, for stating block-level
properties on a standalone block. -/
def inputGraph (shape : Nat × Nat × Nat) : Graph := [⟨.input shape, []⟩]

/-! Shape semantics: feature-map shapes `(height, width, channels)` computed
forward through the graph, with Keras' output-size rules: a 'valid'
convolution or pool maps size `h` to `(h - kernel) / stride + 1`, a 'same'
convolution maps it to `ceil(h / stride)`, zero padding adds twice the
padding, and an elementwise add requires both operands to have one shape. -/

/-- Ceiling division. -/
def ceilDiv (a b : Nat) : Nat := (a + b - 1) / b

/-- Output shape of one operation from the shapes of its inputs. -/
def opShape : NodeOp → List (Nat × Nat × Nat) → Option (Nat × Nat × Nat)
  | .input s, [] => some s
  | .zeroPadding2D (p, q), [(h, w, c)] => some (h + 2 * p, w + 2 * q, c)
  | .conv2D f (kh, kw) (sh, sw) .valid _, [(h, w, _)] =>
    if kh ≤ h ∧ kw ≤ w ∧ 1 ≤ sh ∧ 1 ≤ sw then
      some ((h - kh) / sh + 1, (w - kw) / sw + 1, f)
    else none
  | .conv2D f _ (sh, sw) .same _, [(h, w, _)] =>
    if 1 ≤ sh ∧ 1 ≤ sw then some (ceilDiv h sh, ceilDiv w sw, f) else none
  | .maxPooling2D (ph, pw) (sh, sw), [(h, w, c)] =>
    if ph ≤ h ∧ pw ≤ w ∧ 1 ≤ sh ∧ 1 ≤ sw then
      some ((h - ph) / sh + 1, (w - pw) / sw + 1, c)
    else none
  | .batchNormalization, [s] => some s
  | .relu, [s] => some s
  | .add, [s, t] => if s = t then some s else none
  | .classifier n, [_] => some (1, 1, n)
  | _, _ => none

/-- Look up an already-computed shape. -/
def lookupShape (acc : List (Option (Nat × Nat × Nat))) (i : Nat) :
    Option (Nat × Nat × Nat) :=
  match acc[i]? with
  | some s => s
  | none => none

/-- Shapes of a list of input ids, when all are defined. -/
def insShapes (acc : List (Option (Nat × Nat × Nat))) :
    List Nat → Option (List (Nat × Nat × Nat))
  | [] => some []
  | i :: is =>
    match lookupShape acc i, insShapes acc is with
    | some s, some l => some (s :: l)
    | _, _ => none

/-- Forward shape computation over the remaining nodes, given the shapes of
the nodes already processed. -/
def shapesAux (acc : List (Option (Nat × Nat × Nat))) :
    Graph → List (Option (Nat × Nat × Nat))
  | [] => acc
  | n :: rest =>
    let s := match insShapes acc n.ins with
             | some l => opShape n.op l
             | none => none
    shapesAux (acc ++ [s]) rest

/-- The shape at every node of a graph, in node order. -/
def shapes (g : Graph) : List (Option (Nat × Nat × Nat)) := shapesAux [] g

/-- The shape at one node of a graph. -/
def shapeAt (g : Graph) (i : Nat) : Option (Nat × Nat × Nat) :=
  lookupShape (shapes g) i

/-! Two successive constructor runs with depth selector 50, the second run
observing the class-table state the first run left behind. -/

/-- First run: `ResNetV2(50)` on the pristine class table. -/
def run1 : InitResult := ResNetV2.init ResNetV2.groups (.int 50) (224, 224, 3) 1000

/-- The class-table state after the first run. -/
def table1 : GroupsTable :=
  match run1 with
  | .ok _ t _ => t
  | .error _ => ResNetV2.groups

/-- Second run: `ResNetV2(50)` again, on the class table the first run left. -/
def run2 : InitResult := ResNetV2.init table1 (.int 50) (224, 224, 3) 1000

/-! Helper lemmas. -/

open ResNetV2

/-- Normal form of an identity block: the ten nodes it appends and the id it
returns. -/
lemma identity_block_eq (g : Graph) (x f : Nat) :
    identity_block g x f =
      (g ++ [⟨.batchNormalization, [x]⟩, ⟨.relu, [g.length]⟩,
             ⟨.conv2D f (1, 1) (1, 1) .valid false, [g.length + 1]⟩,
             ⟨.batchNormalization, [g.length + 2]⟩, ⟨.relu, [g.length + 3]⟩,
             ⟨.conv2D f (3, 3) (1, 1) .same false, [g.length + 4]⟩,
             ⟨.batchNormalization, [g.length + 5]⟩, ⟨.relu, [g.length + 6]⟩,
             ⟨.conv2D (f * 4) (1, 1) (1, 1) .valid false, [g.length + 7]⟩,
             ⟨.add, [x, g.length + 8]⟩], g.length + 9) := by
  simp [identity_block, BatchNormalization, ReLU, Conv2D, emit, Nat.add_assoc]

/-- Normal form of a projection block: the twelve nodes it appends and the id
it returns. -/
lemma projection_block_eq (g : Graph) (x : Nat) (s : Nat × Nat) (f : Nat) :
    projection_block g x s f =
      (g ++ [⟨.batchNormalization, [x]⟩,
             ⟨.conv2D (4 * f) (1, 1) s .valid false, [g.length]⟩,
             ⟨.batchNormalization, [x]⟩, ⟨.relu, [g.length + 2]⟩,
             ⟨.conv2D f (1, 1) (1, 1) .valid false, [g.length + 3]⟩,
             ⟨.batchNormalization, [g.length + 4]⟩, ⟨.relu, [g.length + 5]⟩,
             ⟨.conv2D f (3, 3) s .same false, [g.length + 6]⟩,
             ⟨.batchNormalization, [g.length + 7]⟩, ⟨.relu, [g.length + 8]⟩,
             ⟨.conv2D (4 * f) (1, 1) (1, 1) .valid false, [g.length + 9]⟩,
             ⟨.add, [g.length + 10, g.length + 1]⟩], g.length + 11) := by
  simp [projection_block, BatchNormalization, ReLU, Conv2D, emit, Nat.add_assoc]

/-- A fold of a constant step function over `List.range k` is a `k`-fold
iterate. -/
lemma foldl_range_const {α : Type} (F : α → α) (a : α) (k : Nat) :
    (List.range k).foldl (fun p _ => F p) a = F^[k] a := by
  induction k generalizing a with
  | zero => rfl
  | succ k ih =>
    rw [List.range_succ_eq_map]
    simp only [List.foldl_cons, List.foldl_map]
    rw [ih (F a), Function.iterate_succ_apply]

/-- A group is the projection block followed by `n_blocks` iterated identity
blocks. -/
lemma group_eq_iterate (g : Graph) (x : Nat) (s : Nat × Nat) (spec : GroupSpec) :
    group g x s spec =
      (fun p : Graph × Nat => identity_block p.1 p.2 spec.n_filters)^[spec.n_blocks]
        (projection_block g x s spec.n_filters) := by
  unfold group
  exact foldl_range_const _ _ _

/-- An identity block appends ten nodes. -/
lemma identity_block_len (g : Graph) (x f : Nat) :
    (identity_block g x f).1.length = g.length + 10 := by
  rw [identity_block_eq]; simp

/-- An identity block returns the id of the last node of its graph. -/
lemma identity_block_out (g : Graph) (x f : Nat) :
    (identity_block g x f).2 + 1 = (identity_block g x f).1.length := by
  rw [identity_block_eq]; simp

/-- A projection block appends twelve nodes. -/
lemma projection_block_len (g : Graph) (x : Nat) (s : Nat × Nat) (f : Nat) :
    (projection_block g x s f).1.length = g.length + 12 := by
  rw [projection_block_eq]; simp

/-- A projection block returns the id of the last node of its graph. -/
lemma projection_block_out (g : Graph) (x : Nat) (s : Nat × Nat) (f : Nat) :
    (projection_block g x s f).2 + 1 = (projection_block g x s f).1.length := by
  rw [projection_block_eq]; simp

/-- A group returns the id of the last node of its graph. -/
lemma group_out (g : Graph) (x : Nat) (s : Nat × Nat) (spec : GroupSpec) :
    (group g x s spec).2 + 1 = (group g x s spec).1.length := by
  rw [group_eq_iterate]
  induction spec.n_blocks with
  | zero => exact projection_block_out g x s spec.n_filters
  | succ k _ =>
    rw [Function.iterate_succ_apply']
    exact identity_block_out _ _ _

/-- The learner's fold over the remaining groups returns the id of the last
node of its graph, provided its start does. -/
lemma learner_fold_out (rest : List GroupSpec) (p : Graph × Nat)
    (hp : p.2 + 1 = p.1.length) :
    (rest.foldl (fun p spec => group p.1 p.2 (2, 2) spec) p).2 + 1 =
      (rest.foldl (fun p spec => group p.1 p.2 (2, 2) spec) p).1.length := by
  induction rest generalizing p with
  | nil => exact hp
  | cons spec rest ih =>
    simp only [List.foldl_cons]
    exact ih _ (group_out _ _ _ _)

/-- An identity block extends its input graph. -/
lemma identity_block_extends (g : Graph) (x f : Nat) :
    ∃ d, (identity_block g x f).1 = g ++ d := by
  exact ⟨_, congrArg Prod.fst (identity_block_eq g x f)⟩

/-- A projection block extends its input graph. -/
lemma projection_block_extends (g : Graph) (x : Nat) (s : Nat × Nat) (f : Nat) :
    ∃ d, (projection_block g x s f).1 = g ++ d := by
  exact ⟨_, congrArg Prod.fst (projection_block_eq g x s f)⟩

/-- A group extends its input graph. -/
lemma group_extends (g : Graph) (x : Nat) (s : Nat × Nat) (spec : GroupSpec) :
    ∃ d, (group g x s spec).1 = g ++ d := by
  rw [group_eq_iterate]
  induction spec.n_blocks with
  | zero => exact projection_block_extends g x s spec.n_filters
  | succ k ih =>
    obtain ⟨d, hd⟩ := ih
    rw [Function.iterate_succ_apply']
    obtain ⟨d', hd'⟩ := identity_block_extends
      ((fun p : Graph × Nat => identity_block p.1 p.2 spec.n_filters)^[k]
        (projection_block g x s spec.n_filters)).1
      ((fun p : Graph × Nat => identity_block p.1 p.2 spec.n_filters)^[k]
        (projection_block g x s spec.n_filters)).2 spec.n_filters
    exact ⟨d ++ d', by rw [hd', hd, List.append_assoc]⟩

/-- The learner's fold extends its start graph. -/
lemma learner_fold_extends (rest : List GroupSpec) (p : Graph × Nat) :
    ∃ d, (rest.foldl (fun p spec => group p.1 p.2 (2, 2) spec) p).1 = p.1 ++ d := by
  induction rest generalizing p with
  | nil => exact ⟨[], by simp⟩
  | cons spec rest ih =>
    simp only [List.foldl_cons]
    obtain ⟨d, hd⟩ := ih (group p.1 p.2 (2, 2) spec)
    obtain ⟨d', hd'⟩ := group_extends p.1 p.2 (2, 2) spec
    exact ⟨d' ++ d, by rw [hd, hd', List.append_assoc]⟩

/-- For positive `h` and `s`, the 'valid' 1x1 output size at stride `s`
equals the 'same' output size `ceil(h / s)`. -/
lemma pred_div_add_one (h s : Nat) (hh : 1 ≤ h) (hs : 1 ≤ s) :
    (h - 1) / s + 1 = ceilDiv h s := by
  unfold ceilDiv
  rw [show h + s - 1 = h - 1 + s by omega, Nat.add_div_right _ hs]

/-- Ceiling division of a positive number by a positive number is positive. -/
lemma one_le_ceilDiv (h s : Nat) (hh : 1 ≤ h) (hs : 1 ≤ s) :
    1 ≤ ceilDiv h s := by
  unfold ceilDiv
  rw [Nat.le_div_iff_mul_le hs]
  omega

/-- An identity block adds exactly one elementwise-add node. -/
lemma identity_block_addCount (g : Graph) (x f : Nat) :
    addNodeCount (identity_block g x f).1 = addNodeCount g + 1 := by
  rw [identity_block_eq]
  simp [addNodeCount, List.countP_append, List.countP_cons]

/-- A projection block adds exactly one elementwise-add node. -/
lemma projection_block_addCount (g : Graph) (x : Nat) (s : Nat × Nat) (f : Nat) :
    addNodeCount (projection_block g x s f).1 = addNodeCount g + 1 := by
  rw [projection_block_eq]
  simp [addNodeCount, List.countP_append, List.countP_cons]

/-! The claims. -/

/-- C3: for a group specification with `n_blocks = k`, the group constructor
produces exactly one projection block (built first, so the shortcut-projection
decision is made only at the first block of the group) followed by exactly `k`
identity-link residual blocks, all with the group's `n_filters`; accordingly
the group adds exactly `k + 1` residual (elementwise-add) nodes. -/
theorem C3_group_one_projection_then_k_identity (g : Graph) (x : Nat)
    (s : Nat × Nat) (f k : Nat) :
    group g x s ⟨f, k⟩ =
      (fun p : Graph × Nat => identity_block p.1 p.2 f)^[k]
        (projection_block g x s f) ∧
    addNodeCount (group g x s ⟨f, k⟩).1 = addNodeCount g + (k + 1) := by
  refine ⟨group_eq_iterate g x s ⟨f, k⟩, ?_⟩
  rw [group_eq_iterate]
  induction k with
  | zero => simpa using projection_block_addCount g x s f
  | succ k ih =>
    rw [Function.iterate_succ_apply', identity_block_addCount, ih]
    omega

/-- C4: an integer depth selector selects the predefined group table entry
(50 gives filters [64, 128, 256, 512] with blocks [3, 4, 6, 3]; 101 gives
blocks [3, 4, 23, 3]; 152 gives blocks [3, 8, 36, 3]), and a non-integer
`n_layers` is used as the group table unchanged: the model built equals the
one built directly from the selected list. -/
theorem C4_depth_selects_table :
    (∀ (t : GroupsTable) (gs : List GroupSpec) (n : Int) (sh : Nat × Nat × Nat)
        (nc : Nat), t.get n = some gs →
      modelOf (init t (.int n) sh nc) = (construct gs sh nc).map Prod.fst) ∧
    (∀ (t : GroupsTable) (gs : List GroupSpec) (sh : Nat × Nat × Nat) (nc : Nat),
      modelOf (init t (.list gs) sh nc) = (construct gs sh nc).map Prod.fst) ∧
    ResNetV2.groups.get 50 = some [⟨64, 3⟩, ⟨128, 4⟩, ⟨256, 6⟩, ⟨512, 3⟩] ∧
    ResNetV2.groups.get 101 = some [⟨64, 3⟩, ⟨128, 4⟩, ⟨256, 23⟩, ⟨512, 3⟩] ∧
    ResNetV2.groups.get 152 = some [⟨64, 3⟩, ⟨128, 8⟩, ⟨256, 36⟩, ⟨512, 3⟩] := by
  refine ⟨?_, ?_, by decide, by decide, by decide⟩
  · intro t gs n sh nc h
    simp only [init, h]
    cases hc : construct gs sh nc with
    | none => simp [hc, modelOf]
    | some m => obtain ⟨m, rest⟩ := m; simp [hc, modelOf]
  · intro t gs sh nc
    simp only [init]
    cases hc : construct gs sh nc with
    | none => simp [hc, modelOf]
    | some m => obtain ⟨m, rest⟩ := m; simp [hc, modelOf]

/-- Witness for C4 at depth 50 on the pristine table. -/
theorem C4_depth_selects_table_witness :
    ResNetV2.groups.get 50 = some groups50 ∧
    modelOf (init ResNetV2.groups (.int 50) (224, 224, 3) 1000) =
      (construct groups50 (224, 224, 3) 1000).map Prod.fst :=
  ⟨by decide, C4_depth_selects_table.1 ResNetV2.groups groups50 50
    (224, 224, 3) 1000 (by decide)⟩

set_option maxHeartbeats 2000000 in
/-- C5: both residual blocks' main paths are pre-activated bottlenecks: the
convolutions are 1x1 then 3x3 then 1x1, the first two with `n_filters`
channels and the third with `4 * n_filters`, all without bias, and every
main-path convolution is preceded by BatchNormalization then ReLU (for the
projection block the first three nodes - shortcut BatchNormalization and
projection convolution - are dropped, leaving exactly the main path and the
add node). -/
theorem C5_bottleneck_pre_activation (shape : Nat × Nat × Nat) (f : Nat)
    (s : Nat × Nat) :
    convs (identity_block (inputGraph shape) 0 f).1 =
      [⟨f, (1, 1), (1, 1), .valid, false⟩,
       ⟨f, (3, 3), (1, 1), .same, false⟩,
       ⟨f * 4, (1, 1), (1, 1), .valid, false⟩] ∧
    allConvsPreActivated (identity_block (inputGraph shape) 0 f).1
      (identity_block (inputGraph shape) 0 f).1 = true ∧
    convs ((projection_block (inputGraph shape) 0 s f).1.drop 3) =
      [⟨f, (1, 1), (1, 1), .valid, false⟩,
       ⟨f, (3, 3), s, .same, false⟩,
       ⟨4 * f, (1, 1), (1, 1), .valid, false⟩] ∧
    allConvsPreActivated (projection_block (inputGraph shape) 0 s f).1
      ((projection_block (inputGraph shape) 0 s f).1.drop 3) = true :=
  ⟨rfl, rfl, rfl, rfl⟩

/-- C6: an identity block returns the elementwise add of its unmodified input
(the add node's first operand is the block input id `x` itself, with no layer
applied to it) and the main-path output; a projection block returns the
elementwise add of the main-path output and the projected input (the add
node's second operand is the projection convolution at offset 1). -/
theorem C6_add_of_shortcut_and_main (g : Graph) (x : Nat) (s : Nat × Nat)
    (f : Nat) :
    identity_block g x f =
      (g ++ [⟨.batchNormalization, [x]⟩, ⟨.relu, [g.length]⟩,
             ⟨.conv2D f (1, 1) (1, 1) .valid false, [g.length + 1]⟩,
             ⟨.batchNormalization, [g.length + 2]⟩, ⟨.relu, [g.length + 3]⟩,
             ⟨.conv2D f (3, 3) (1, 1) .same false, [g.length + 4]⟩,
             ⟨.batchNormalization, [g.length + 5]⟩, ⟨.relu, [g.length + 6]⟩,
             ⟨.conv2D (f * 4) (1, 1) (1, 1) .valid false, [g.length + 7]⟩,
             ⟨.add, [x, g.length + 8]⟩], g.length + 9) ∧
    projection_block g x s f =
      (g ++ [⟨.batchNormalization, [x]⟩,
             ⟨.conv2D (4 * f) (1, 1) s .valid false, [g.length]⟩,
             ⟨.batchNormalization, [x]⟩, ⟨.relu, [g.length + 2]⟩,
             ⟨.conv2D f (1, 1) (1, 1) .valid false, [g.length + 3]⟩,
             ⟨.batchNormalization, [g.length + 4]⟩, ⟨.relu, [g.length + 5]⟩,
             ⟨.conv2D f (3, 3) s .same false, [g.length + 6]⟩,
             ⟨.batchNormalization, [g.length + 7]⟩, ⟨.relu, [g.length + 8]⟩,
             ⟨.conv2D (4 * f) (1, 1) (1, 1) .valid false, [g.length + 9]⟩,
             ⟨.add, [g.length + 10, g.length + 1]⟩], g.length + 11) :=
  ⟨identity_block_eq g x f, projection_block_eq g x s f⟩

/-- C8: the learner builds the first residual group with strides (1, 1) and
every subsequent group with strides (2, 2); within a projection block, read
off as (kernel, strides) pairs of the convolutions it appends, only the 1x1
shortcut convolution and the 3x3 main-path convolution carry the group
strides `s`; all convolutions an identity block appends use strides (1, 1). -/
theorem C8_stride_placement (g : Graph) (x : Nat) (s : Nat × Nat) (f : Nat)
    (g0 : GroupSpec) (rest : List GroupSpec) :
    learner g x (g0 :: rest) =
      some (rest.foldl (fun p spec => group p.1 p.2 (2, 2) spec)
        (group g x (1, 1) g0), rest) ∧
    ((convs ((identity_block g x f).1.drop g.length)).all
      (fun cs => cs.strides == (1, 1))) = true ∧
    (convs ((projection_block g x s f).1.drop g.length)).map
        (fun cs => (cs.kernel, cs.strides)) =
      [((1, 1), s), ((1, 1), (1, 1)), ((3, 3), s), ((1, 1), (1, 1))] := by
  refine ⟨rfl, ?_, ?_⟩
  · have h := congrArg Prod.fst (identity_block_eq g x f)
    rw [h, List.drop_left]
    rfl
  · have h := congrArg Prod.fst (projection_block_eq g x s f)
    rw [h, List.drop_left]
    rfl

set_option maxHeartbeats 4000000 in
/-- C10: the constructor mutates its inputs and the class state: passing a
user list pops that list's first element (the result carries the tail as the
list's new contents), and for depths 50, 101 and 152 the pop is visible in
the shared class-level groups table, whose entry for that depth afterwards
has one fewer group. -/
theorem C10_pop_mutates_state (sh : Nat × Nat × Nat) (nc : Nat) :
    (∀ (t : GroupsTable) (g0 : GroupSpec) (rest : List GroupSpec),
      ∃ m, init t (.list (g0 :: rest)) sh nc = .ok m t (some rest)) ∧
    (∃ m t', init ResNetV2.groups (.int 50) sh nc = .ok m t' none ∧
      t'.entry50 = ResNetV2.groups.entry50.tail ∧
      t'.entry50.length + 1 = ResNetV2.groups.entry50.length) ∧
    (∃ m t', init ResNetV2.groups (.int 101) sh nc = .ok m t' none ∧
      t'.entry101 = ResNetV2.groups.entry101.tail ∧
      t'.entry101.length + 1 = ResNetV2.groups.entry101.length) ∧
    (∃ m t', init ResNetV2.groups (.int 152) sh nc = .ok m t' none ∧
      t'.entry152 = ResNetV2.groups.entry152.tail ∧
      t'.entry152.length + 1 = ResNetV2.groups.entry152.length) := by
  refine ⟨fun t g0 rest => ⟨_, rfl⟩, ⟨_, _, rfl, rfl, rfl⟩,
    ⟨_, _, rfl, rfl, rfl⟩, ⟨_, _, rfl, rfl, rfl⟩⟩

set_option maxHeartbeats 4000000 in
set_option maxRecDepth 100000 in
/-- C1 counterexample: two runs of the constructor with the same arguments
(depth selector 50, default input shape and classes) do not produce the same
graph: the first run pops `{'n_filters': 64, 'n_blocks': 3}` off the shared
class table entry, so the second run builds only three residual groups; the
first model has 20 residual add nodes, the second only 16, and the two model
graphs differ. -/
theorem C1_cex_second_run_differs :
    (modelOf run1).map (fun m => addNodeCount m.1) = some 20 ∧
    (modelOf run2).map (fun m => addNodeCount m.1) = some 16 ∧
    modelOf run1 ≠ modelOf run2 := by
  exact ⟨by decide, by decide, by decide⟩

/-- C1 (amended): the constructor is deterministic relative to the observed
groups state: two runs with an integer depth selector yield identical models
whenever their group tables agree on the selected entry, and two runs with
the same user-supplied list contents yield identical models whatever the
tables; but a run mutates the shared table (see C10), so an immediately
following run with the same depth observes a different entry. -/
theorem C1_deterministic_given_state (t t' : GroupsTable) (sh : Nat × Nat × Nat)
    (nc : Nat) :
    (∀ n : Int, t.get n = t'.get n →
      modelOf (init t (.int n) sh nc) = modelOf (init t' (.int n) sh nc)) ∧
    (∀ gs : List GroupSpec,
      modelOf (init t (.list gs) sh nc) = modelOf (init t' (.list gs) sh nc)) := by
  constructor
  · intro n h
    simp only [init, h]
    cases t'.get n with
    | none => rfl
    | some gs =>
      cases hc : construct gs sh nc with
      | none => simp [hc, modelOf]
      | some m => obtain ⟨m, rest⟩ := m; simp [hc, modelOf]
  · intro gs
    simp only [init]
    cases hc : construct gs sh nc with
    | none => simp [hc, modelOf]
    | some m => obtain ⟨m, rest⟩ := m; simp [hc, modelOf]

set_option maxHeartbeats 2000000 in
/-- Witness for C1 (amended): the first run left the table entry for depth
101 untouched, so a fresh-table run and a post-run1 run at depth 101 build
the same model. -/
theorem C1_deterministic_given_state_witness :
    ResNetV2.groups.get 101 = table1.get 101 ∧
    modelOf (init ResNetV2.groups (.int 101) (224, 224, 3) 1000) =
      modelOf (init table1 (.int 101) (224, 224, 3) 1000) :=
  ⟨by decide, (C1_deterministic_given_state ResNetV2.groups table1
    (224, 224, 3) 1000).1 101 (by decide)⟩

/-- C2 counterexample: for the non-integer argument `n_layers = []` (the
empty list of group specifications) the constructor does not return normally:
`groups.pop(0)` in `learner` raises an `IndexError`, a failure of the
assembly logic other than the input-validation exception. -/
theorem C2_cex_empty_list_raises :
    init ResNetV2.groups (.list []) (224, 224, 3) 1000 = .error .indexError ∧
    raisesInvalid (init ResNetV2.groups (.list []) (224, 224, 3) 1000) = false :=
  ⟨rfl, rfl⟩

set_option maxHeartbeats 4000000 in
/-- C2 (amended): the input-validation exception is raised if and only if
`n_layers` is an integer not in [50, 101, 152]; depths 50, 101 and 152 (on
the pristine table) and every non-empty user list construct without
exception; but an empty user list raises an `IndexError` from the pop of the
first group, so the validation exception is not the only failure the assembly
logic can produce. -/
theorem C2_invalid_depth_iff (sh : Nat × Nat × Nat) (nc : Nat) :
    (∀ (t : GroupsTable) (n : Int),
      raisesInvalid (init t (.int n) sh nc) = true ↔
        ¬(n = 50 ∨ n = 101 ∨ n = 152)) ∧
    (∀ n : Int, (n = 50 ∨ n = 101 ∨ n = 152) →
      isOk (init ResNetV2.groups (.int n) sh nc) = true) ∧
    (∀ (t : GroupsTable) (g0 : GroupSpec) (rest : List GroupSpec),
      isOk (init t (.list (g0 :: rest)) sh nc) = true) ∧
    isOk (init ResNetV2.groups (.list []) sh nc) = false := by
  refine ⟨?_, ?_, fun t g0 rest => rfl, rfl⟩
  · intro t n
    by_cases h50 : n = 50
    · subst h50
      simp only [init, GroupsTable.get, if_pos rfl]
      cases hc : construct t.entry50 sh nc with
      | none => simp [hc, raisesInvalid]
      | some m => obtain ⟨m, rest⟩ := m; simp [hc, raisesInvalid]
    · by_cases h101 : n = 101
      · subst h101
        simp only [init, GroupsTable.get]
        norm_num
        cases hc : construct t.entry101 sh nc with
        | none => simp [hc, raisesInvalid]
        | some m => obtain ⟨m, rest⟩ := m; simp [hc, raisesInvalid]
      · by_cases h152 : n = 152
        · subst h152
          simp only [init, GroupsTable.get]
          norm_num
          cases hc : construct t.entry152 sh nc with
          | none => simp [hc, raisesInvalid]
          | some m => obtain ⟨m, rest⟩ := m; simp [hc, raisesInvalid]
        · simp only [init, GroupsTable.get, if_neg h50, if_neg h101, if_neg h152]
          simp [raisesInvalid, h50, h101, h152]
  · intro n hn
    rcases hn with rfl | rfl | rfl <;> rfl

/-- Witness for C2 (amended): depth 101 on the pristine table constructs
without exception. -/
theorem C2_invalid_depth_iff_witness :
    ((101 : Int) = 50 ∨ (101 : Int) = 101 ∨ (101 : Int) = 152) ∧
    isOk (init ResNetV2.groups (.int 101) (224, 224, 3) 1000) = true :=
  ⟨by norm_num, (C2_invalid_depth_iff (224, 224, 3) 1000).2.1 101 (by norm_num)⟩

set_option maxHeartbeats 2000000 in
/-- C7: in a projection block built on an input of shape `(h, w, c)` with
strides `(sh, sw)`, the shortcut applied to the block input is a 1x1
convolution with `4 * n_filters` channels and the block strides, preceded by
BatchNormalization (nodes 1 and 2); its output shape equals the main path's
output shape (node 11), and the elementwise add node (node 12) therefore
type-checks with shape `(ceil(h/sh), ceil(w/sw), 4 * n_filters)`. -/
theorem C7_projection_shortcut_matches_shape (h w c sh sw f : Nat)
    (hh : 1 ≤ h) (hw : 1 ≤ w) (hsh : 1 ≤ sh) (hsw : 1 ≤ sw) :
    (projection_block (inputGraph (h, w, c)) 0 (sh, sw) f).1[1]? =
      some ⟨.batchNormalization, [0]⟩ ∧
    (projection_block (inputGraph (h, w, c)) 0 (sh, sw) f).1[2]? =
      some ⟨.conv2D (4 * f) (1, 1) (sh, sw) .valid false, [1]⟩ ∧
    shapeAt (projection_block (inputGraph (h, w, c)) 0 (sh, sw) f).1 2 =
      shapeAt (projection_block (inputGraph (h, w, c)) 0 (sh, sw) f).1 11 ∧
    shapeAt (projection_block (inputGraph (h, w, c)) 0 (sh, sw) f).1 12 =
      some (ceilDiv h sh, ceilDiv w sw, 4 * f) := by
  have e1 : (h - 1) / sh + 1 = ceilDiv h sh := pred_div_add_one h sh hh hsh
  have e2 : (w - 1) / sw + 1 = ceilDiv w sw := pred_div_add_one w sw hw hsw
  have c1 : 1 ≤ ceilDiv h sh := one_le_ceilDiv h sh hh hsh
  have c2 : 1 ≤ ceilDiv w sw := one_le_ceilDiv w sw hw hsw
  have hs : shapes (projection_block (inputGraph (h, w, c)) 0 (sh, sw) f).1 =
      [some (h, w, c), some (h, w, c),
       some (ceilDiv h sh, ceilDiv w sw, 4 * f),
       some (h, w, c), some (h, w, c), some (h, w, f), some (h, w, f),
       some (h, w, f),
       some (ceilDiv h sh, ceilDiv w sw, f),
       some (ceilDiv h sh, ceilDiv w sw, f),
       some (ceilDiv h sh, ceilDiv w sw, f),
       some (ceilDiv h sh, ceilDiv w sw, 4 * f),
       some (ceilDiv h sh, ceilDiv w sw, 4 * f)] := by
    simp [shapes, shapesAux, insShapes, lookupShape, opShape,
      projection_block, BatchNormalization, ReLU, Conv2D, emit, inputGraph,
      hh, hw, hsh, hsw, e1, e2, c1, c2,
      Nat.sub_add_cancel hh, Nat.sub_add_cancel hw,
      Nat.sub_add_cancel c1, Nat.sub_add_cancel c2]
  refine ⟨rfl, rfl, ?_, ?_⟩ <;> simp only [shapeAt, hs] <;> rfl

/-- Witness for C7 at the first feature-pooling projection of ResNet:
input shape (56, 56, 256), strides (2, 2), 128 filters. -/
theorem C7_projection_shortcut_matches_shape_witness :
    (1 ≤ 56 ∧ 1 ≤ 2) ∧
    shapeAt (projection_block (inputGraph (56, 56, 256)) 0 (2, 2) 128).1 12 =
      some (ceilDiv 56 2, ceilDiv 56 2, 4 * 128) :=
  ⟨⟨by norm_num, by norm_num⟩,
    (C7_projection_shortcut_matches_shape 56 56 256 2 2 128
      (by norm_num) (by norm_num) (by norm_num) (by norm_num)).2.2.2⟩

/-- C9: the assembled graph is ordered: the model built from any non-empty
groups list is a classifier node, wired to the last learner node, appended to
a graph that extends the stem graph; the stem itself is zero-padding (3, 3),
a 7x7 convolution with 64 filters and strides (2, 2), BatchNormalization,
ReLU, zero-padding (1, 1), and a 3x3 max-pool with strides (2, 2), applied
directly to the input node; on a 224x224x3 input its stages reduce the
spatial resolution from 224x224 through 112x112 to 56x56. -/
theorem C9_stem_then_groups_then_classifier (sh : Nat × Nat × Nat) (nc : Nat)
    (g0 : GroupSpec) (rest : List GroupSpec) :
    (∃ body d, construct (g0 :: rest) sh nc =
        some ((body ++ [⟨.classifier nc, [body.length - 1]⟩], body.length), rest) ∧
      body = (stem (inputGraph sh) 0).1 ++ d) ∧
    (stem (inputGraph sh) 0).1 =
      [⟨.input sh, []⟩, ⟨.zeroPadding2D (3, 3), [0]⟩,
       ⟨.conv2D 64 (7, 7) (2, 2) .valid false, [1]⟩,
       ⟨.batchNormalization, [2]⟩, ⟨.relu, [3]⟩,
       ⟨.zeroPadding2D (1, 1), [4]⟩, ⟨.maxPooling2D (3, 3) (2, 2), [5]⟩] ∧
    shapes (stem (inputGraph (224, 224, 3)) 0).1 =
      [some (224, 224, 3), some (230, 230, 3), some (112, 112, 64),
       some (112, 112, 64), some (112, 112, 64), some (114, 114, 64),
       some (56, 56, 64)] := by
  refine ⟨?_, rfl, by decide⟩
  have hout : ∀ p : Graph × Nat,
      p = rest.foldl (fun p spec => group p.1 p.2 (2, 2) spec)
        (group (stem (inputGraph sh) 0).1 (stem (inputGraph sh) 0).2 (1, 1) g0) →
      p.2 + 1 = p.1.length := by
    intro p hp
    subst hp
    exact learner_fold_out rest _ (group_out _ _ _ _)
  set P := rest.foldl (fun p spec => group p.1 p.2 (2, 2) spec)
    (group (stem (inputGraph sh) 0).1 (stem (inputGraph sh) 0).2 (1, 1) g0) with hP
  obtain ⟨d1, hd1⟩ := group_extends (stem (inputGraph sh) 0).1
    (stem (inputGraph sh) 0).2 (1, 1) g0
  obtain ⟨d2, hd2⟩ := learner_fold_extends rest
    (group (stem (inputGraph sh) 0).1 (stem (inputGraph sh) 0).2 (1, 1) g0)
  refine ⟨P.1, d1 ++ d2, ?_, ?_⟩
  · have he : construct (g0 :: rest) sh nc =
        some ((P.1 ++ [⟨.classifier nc, [P.2]⟩], P.1.length), rest) := rfl
    rw [he]
    have h2 := hout P hP
    rw [show P.2 = P.1.length - 1 by omega]
  · rw [hP, hd2, hd1, List.append_assoc]

end ResNetV2C
